import Mathlib

/-!
A verification development for the element-export resolution core of
`slang_rs_export_element.cpp` (the RenderScript `slang` compiler front end).

The file embeds, as executable Lean definitions:
  * the element catalogue (`Init`, `GetElementInfo`, the static table),
  * `RSExportElement.Create` (Operation A: build a verified primitive or
    vector export type from a type node and an element descriptor),
  * `RSExportElement.CreateFromDecl` (Operation B: resolve a declaration's
    type through its typedef chain against the catalogue).

External collaborators that live outside the excerpt (clang's type nodes,
`RSExportType::NormalizeType`, the primitive/vector export-type builders,
the static data-element table) are modelled from the specification and are
marked as such in their doc comments.
-/

namespace Slang

/-- Modelled from the spec: the closed set of scalar element kinds
(`RSExportPrimitiveType::DataType`).  Only the kinds the catalogue and the
scenarios mention are listed; the development is parametric in the rest. -/
inductive DataType
  | Float32
  | Signed8
  | Signed16
  | Signed32
  | Unsigned8
  | Unsigned16
  | Unsigned32
  deriving DecidableEq, Repr

/-- `RSExportElement::ElementInfo`: the descriptor attached to a catalogue
name — underlying scalar kind, normalized flag, vector width
(`vsize == 1` means scalar, `vsize > 1` means fixed-width vector). -/
structure ElementInfo where
  type : DataType
  normalized : Bool
  vsize : Nat
  deriving DecidableEq, Repr

/-- Modelled from the spec: the read-only clang type node, restricted to the
structural classes the resolver inspects — builtin scalar, pointer,
fixed-width (ext) vector, typedef alias layer, and record (struct), the
representative of every other class.  Builtin, pointer and vector nodes
carry the scalar kind the external primitive/vector builders would infer
for them; every node carries its source spelling. -/
inductive CType
  | builtin (dt : DataType) (name : String)
  | pointer (dt : DataType) (name : String)
  | extVector (dt : DataType) (width : Nat) (name : String)
  | typedefType (name : String) (underlying : CType)
  | record (name : String)
  deriving DecidableEq, Repr

/-- `clang::Type::TypeClass`, restricted to the classes that occur. -/
inductive TypeClass
  | Builtin
  | Pointer
  | ExtVector
  | Typedef
  | Record
  deriving DecidableEq, Repr

/-- `Type::getTypeClass()`: the class tag of a type node. -/
def getTypeClass : CType → TypeClass
  | .builtin _ _ => .Builtin
  | .pointer _ _ => .Pointer
  | .extVector _ _ _ => .ExtVector
  | .typedefType _ _ => .Typedef
  | .record _ => .Record

/-- `Type::getTypeClassName()`: the printable name of the class tag,
used by the not-exportable diagnostic. -/
def getTypeClassName (T : CType) : String :=
  match getTypeClass T with
  | .Builtin => "Builtin"
  | .Pointer => "Pointer"
  | .ExtVector => "ExtVector"
  | .Typedef => "Typedef"
  | .Record => "Record"

/-- `GET_CANONICAL_TYPE`: strip all alias (typedef) sugar, exposing the
true structural class. -/
def GET_CANONICAL_TYPE : CType → CType
  | .typedefType _ u => GET_CANONICAL_TYPE u
  | T => T

/-- Modelled from the spec: `RSExportType::GetTypeName`, the canonical
spelling of a type node (only carried along; no claim depends on it). -/
def GetTypeName : CType → String
  | .builtin _ n => n
  | .pointer _ n => n
  | .extVector _ _ n => n
  | .typedefType n _ => n
  | .record n => n

/-- Modelled from the spec: the scalar kind the external builders infer
from a builtin, pointer or vector node (`Float32` is a junk default on the
classes the builders are never given). -/
def inferDataType : CType → DataType
  | .builtin dt _ => dt
  | .pointer dt _ => dt
  | .extVector dt _ _ => dt
  | _ => .Float32

/-- Modelled from the spec: `RSExportType::NormalizeType` — canonicalize a
type node and compute its canonical name; fail (return `none`) when the
type uses unsupported language features.  Which canonical types are
exportable is delegated to the oracle `ex`, keeping the development
parametric in the host compiler's feature set. -/
def NormalizeType (ex : CType → Bool) (T : CType) : Option (String × CType) :=
  let C := GET_CANONICAL_TYPE T
  if ex C then some (GetTypeName C, C) else none

/-- The polymorphic resolution result (`RSExportType` and subclasses):
`primitive` from `RSExportPrimitiveType::Create`, `vector` from
`RSExportVectorType::Create`, `generic` standing for whatever the external
generic builder `RSExportType::Create` produced. -/
inductive RSExportType
  | primitive (dt : DataType) (normalized : Bool) (name : String)
  | vector (dt : DataType) (numElement : Nat) (normalized : Bool) (name : String)
  | generic (source : CType)
  deriving DecidableEq, Repr

/-- The observable outcome of a resolution call: `notExportable` models a
NULL result (a recoverable, reportable condition), `catalogueInconsistency`
models a failing `slangAssert` (the fatal descriptor/shape contract
violation), `ok` carries the constructed export type. -/
inductive CreateResult
  | notExportable
  | catalogueInconsistency (msg : String)
  | ok (et : RSExportType)
  deriving DecidableEq, Repr

/-- The process-wide catalogue state: the `Initialized` flag and the
`ElementInfoMap`, modelled as an insertion-ordered association list. -/
structure CatalogueState where
  inited : Bool
  elementInfoMap : List (String × ElementInfo)
  deriving DecidableEq, Repr

/-- The static initial state of the two globals
(`Initialized = false`, empty `ElementInfoMap`). -/
def initialState : CatalogueState := { inited := false, elementInfoMap := [] }

/-- Modelled from the spec: the fixed static table
`RSDataElementEnums.inc` of `(name, scalarKind, normalized, vectorWidth)`
tuples compiled into the program.  The entries are the ones the spec's
scenarios name (`rs_uchar`, `rs_uchar4`) together with the pixel elements
the source comments mention. -/
def RSDataElementTable : List (String × DataType × Bool × Nat) :=
  [ ("rs_uchar", DataType.Unsigned8, true, 1),
    ("rs_uchar4", DataType.Unsigned8, true, 4),
    ("rs_pixel_rgb", DataType.Unsigned8, true, 3),
    ("rs_pixel_rgba", DataType.Unsigned8, true, 4) ]

/-- `llvm::StringMap::insert` semantics: insert the pair only when the key
is absent; an existing entry is never overwritten. -/
def insertEntry (m : List (String × ElementInfo)) (name : String)
    (ei : ElementInfo) : List (String × ElementInfo) :=
  match m.lookup name with
  | some _ => m
  | none => m ++ [(name, ei)]

/-- `RSExportElement::Init`: populate `ElementInfoMap` from the static
table on first call, no-op when `Initialized` is already set. -/
def Init (s : CatalogueState) : CatalogueState :=
  if s.inited then s
  else
    { inited := true,
      elementInfoMap :=
        RSDataElementTable.foldl
          (fun m e =>
            insertEntry m e.1
              { type := e.2.1, normalized := e.2.2.1, vsize := e.2.2.2 })
          s.elementInfoMap }

/-- `RSExportElement::GetElementInfo`: self-initialize, then look the name
up in the map; returns the updated state together with the result. -/
def GetElementInfo (s : CatalogueState) (Name : String) :
    CatalogueState × Option ElementInfo :=
  let s' := if s.inited then s else Init s
  (s', s'.elementInfoMap.lookup Name)

/-- The catalogue-independent part of `RSExportElement::Create`: normalize
the type node (failing with a NULL result when normalization fails), then
branch on the normalized node's structural class: builtin/pointer build a
verified primitive, ext-vector builds a verified vector, anything else
prints the not-exportable diagnostic and yields NULL.  The `slangAssert`
cross-checks between descriptor and inferred shape surface as
`catalogueInconsistency`.  Returns (result, emitted diagnostics). -/
def CreateAux (ex : CType → Bool) (T : CType)
    (EI : ElementInfo) : CreateResult × List String :=
  match NormalizeType ex T with
  | none => (CreateResult.notExportable, [])
  | some (TypeName, T') =>
    match T' with
    | CType.builtin dt _ =>
      if EI.vsize ≠ 1 then
        (CreateResult.catalogueInconsistency
          "Element not a primitive class (please check your macro)", [])
      else if EI.type ≠ dt then
        (CreateResult.catalogueInconsistency
          "Element has unexpected type", [])
      else
        (CreateResult.ok (RSExportType.primitive dt EI.normalized TypeName), [])
    | CType.pointer dt _ =>
      if EI.vsize ≠ 1 then
        (CreateResult.catalogueInconsistency
          "Element not a primitive class (please check your macro)", [])
      else if EI.type ≠ dt then
        (CreateResult.catalogueInconsistency
          "Element has unexpected type", [])
      else
        (CreateResult.ok (RSExportType.primitive dt EI.normalized TypeName), [])
    | CType.extVector dt w _ =>
      if ¬ EI.vsize > 1 then
        (CreateResult.catalogueInconsistency
          "Element not a vector class (please check your macro)", [])
      else if EI.type ≠ dt then
        (CreateResult.catalogueInconsistency
          "Element has unexpected type", [])
      else if EI.vsize ≠ w then
        (CreateResult.catalogueInconsistency
          "Element has unexpected size of vector", [])
      else
        (CreateResult.ok (RSExportType.vector dt w EI.normalized TypeName), [])
    | other =>
      (CreateResult.notExportable,
        ["RSExportElement::Create : type " ++ getTypeClassName other ++
          " is not exportable"])

/-- `RSExportElement::Create` (Operation A): self-initialize the catalogue
(lines 67-68), then run the normalize-and-branch logic of `CreateAux`.
Returns (state, result, emitted diagnostics). -/
def Create (ex : CType → Bool) (s : CatalogueState) (T : CType)
    (EI : ElementInfo) : CatalogueState × CreateResult × List String :=
  let s' := if s.inited then s else Init s
  (s', CreateAux ex T EI)

/-- Modelled from the spec: a declarator declaration is, for the resolver,
just the type node it declares (`RSExportType::GetTypeOfDecl`). -/
structure DeclaratorDecl where
  type : CType
  deriving DecidableEq, Repr

/-- `RSExportType::GetTypeOfDecl`, restricted to the resolver's use. -/
def GetTypeOfDecl (DD : DeclaratorDecl) : CType := DD.type

/-- Lift the external generic builder's optional result to the observable
outcome (`NULL` becomes `notExportable`). -/
def fromGen : Option RSExportType → CreateResult
  | none => CreateResult.notExportable
  | some et => CreateResult.ok et

/-- The typedef-chain loop of `CreateFromDecl` (lines 134-146): starting
from the declared node, while the node differs from its canonical form and
is a typedef layer, look the layer's alias name up in the catalogue; stop
at the node of the first layer whose name is found (returning its
descriptor), otherwise advance to the layer's underlying type.  Returns
the updated state, the node at which the walk stopped, and the matched
descriptor, if any. -/
def walkAliasChain (CT : CType) (s : CatalogueState) :
    CType → CatalogueState × CType × Option ElementInfo
  | T@(CType.typedefType n u) =>
    if T = CT then (s, T, none)
    else
      match GetElementInfo s n with
      | (s', some e) => (s', T, some e)
      | (s', none) => walkAliasChain CT s' u
  | T => (s, T, none)

/-- `RSExportElement::CreateFromDecl` (Operation B): when the canonical
class is neither builtin nor ext-vector, delegate directly to the external
generic builder `gen` on the declared node; otherwise walk the typedef
chain, and either invoke `Create` with the node the walk stopped at and
the matched descriptor, or, with no match, delegate to `gen` on the node
the walk stopped at. -/
def CreateFromDecl (ex : CType → Bool) (gen : CType → Option RSExportType)
    (s : CatalogueState) (DD : DeclaratorDecl) :
    CatalogueState × CreateResult × List String :=
  let T := GetTypeOfDecl DD
  let CT := GET_CANONICAL_TYPE T
  if getTypeClass CT ≠ TypeClass.Builtin ∧ getTypeClass CT ≠ TypeClass.ExtVector then
    (s, fromGen (gen T), [])
  else
    match walkAliasChain CT s T with
    | (s', T', none) => (s', fromGen (gen T'), [])
    | (s', T', some e) => Create ex s' T' e

/-! ### Concrete instances used by witnesses and counterexamples -/

/-- A permissive exportability oracle: every canonical type normalizes. -/
def exportAll : CType → Bool := fun _ => true

/-- A generic builder that records the node it was handed, making the
argument of the delegation observable. -/
def genBuilder : CType → Option RSExportType := fun t =>
  some (RSExportType.generic t)

/-- The builtin node for `unsigned char`. -/
def ucharBuiltin : CType := CType.builtin DataType.Unsigned8 "unsigned char"

/-- The 4-wide ext-vector node for `uchar4`. -/
def uchar4Vector : CType := CType.extVector DataType.Unsigned8 4 "uchar4"

/-- The catalogue descriptor of `rs_uchar`. -/
def eiUchar : ElementInfo :=
  { type := DataType.Unsigned8, normalized := true, vsize := 1 }

/-- The catalogue descriptor of `rs_uchar4`. -/
def eiUchar4 : ElementInfo :=
  { type := DataType.Unsigned8, normalized := true, vsize := 4 }

/-! ### Helper lemmas -/

/-- Alias stripping never stops at a typedef layer. -/
theorem getTypeClass_canonical_ne_typedef (T : CType) :
    getTypeClass (GET_CANONICAL_TYPE T) ≠ TypeClass.Typedef := by
  induction T with
  | builtin dt n => simp [GET_CANONICAL_TYPE, getTypeClass]
  | pointer dt n => simp [GET_CANONICAL_TYPE, getTypeClass]
  | extVector dt w n => simp [GET_CANONICAL_TYPE, getTypeClass]
  | typedefType n u ih => simpa [GET_CANONICAL_TYPE] using ih
  | record n => simp [GET_CANONICAL_TYPE, getTypeClass]

/-- The canonical form of a type is never a typedef node. -/
theorem canonical_ne_typedefType (T : CType) (n : String) (u : CType) :
    GET_CANONICAL_TYPE T ≠ CType.typedefType n u := by
  intro h
  have hcl := getTypeClass_canonical_ne_typedef T
  rw [h] at hcl
  exact hcl rfl

/-- `Init` always leaves the flag set. -/
theorem Init_inited (s : CatalogueState) : (Init s).inited = true := by
  by_cases h : s.inited <;> simp [Init, h]

/-- `Init` is the identity on an already-initialized state. -/
theorem Init_of_inited (s : CatalogueState) (h : s.inited = true) :
    Init s = s := by
  simp [Init, h]

/-- `Init` is idempotent on every state. -/
theorem Init_idem (s : CatalogueState) : Init (Init s) = Init s :=
  Init_of_inited _ (Init_inited s)

/-! ### Claims about Operation A (`Create`) -/

/-- C7: for every call to `Create`, if the type-normalization collaborator
fails on the supplied node, the call returns the NULL (`notExportable`)
result with no diagnostics and no constructed export type, before any
structural-class branching: the outcome is the same whatever the node's
class and whatever the descriptor. -/
theorem create_normalize_failure (ex : CType → Bool) (s : CatalogueState)
    (T : CType) (EI : ElementInfo)
    (h : NormalizeType ex T = none) :
    (Create ex s T EI).2 = (CreateResult.notExportable, []) := by
  simp [Create, CreateAux, h]

/-- Witness for C7 at a concrete input: an oracle rejecting everything
makes normalization fail on `unsigned char`, and `Create` yields NULL. -/
theorem create_normalize_failure_witness :
    (Create (fun _ => false) initialState ucharBuiltin eiUchar).2 =
      (CreateResult.notExportable, []) :=
  create_normalize_failure (fun _ => false) initialState ucharBuiltin eiUchar
    (by decide)

/-- C8: for every call to `Create` whose normalized node's structural class
is neither builtin, nor pointer, nor ext-vector, the call emits the
diagnostic naming the unsupported class and returns the NULL
(`notExportable`) result, never an export type. -/
theorem create_unsupported_class (ex : CType → Bool) (s : CatalogueState)
    (T : CType) (EI : ElementInfo)
    (hex : ex (GET_CANONICAL_TYPE T) = true)
    (h1 : getTypeClass (GET_CANONICAL_TYPE T) ≠ TypeClass.Builtin)
    (h2 : getTypeClass (GET_CANONICAL_TYPE T) ≠ TypeClass.Pointer)
    (h3 : getTypeClass (GET_CANONICAL_TYPE T) ≠ TypeClass.ExtVector) :
    (Create ex s T EI).2 =
      (CreateResult.notExportable,
       ["RSExportElement::Create : type " ++
         getTypeClassName (GET_CANONICAL_TYPE T) ++ " is not exportable"]) := by
  cases hC : GET_CANONICAL_TYPE T with
  | builtin dt n => rw [hC] at h1; simp [getTypeClass] at h1
  | pointer dt n => rw [hC] at h2; simp [getTypeClass] at h2
  | extVector dt w n => rw [hC] at h3; simp [getTypeClass] at h3
  | typedefType n u => exact absurd hC (canonical_ne_typedefType T n u)
  | record n =>
    rw [hC] at hex
    simp [Create, CreateAux, NormalizeType, hC, hex, getTypeClassName,
      getTypeClass]

/-- Witness for C8 at a concrete input: a struct (`Record` class) typedef'd
to the catalogue name `rs_uchar` yields the diagnostic and NULL. -/
theorem create_unsupported_class_witness :
    (Create exportAll initialState
        (CType.typedefType "rs_uchar" (CType.record "foo")) eiUchar).2 =
      (CreateResult.notExportable,
       ["RSExportElement::Create : type " ++
         getTypeClassName
           (GET_CANONICAL_TYPE
             (CType.typedefType "rs_uchar" (CType.record "foo"))) ++
         " is not exportable"]) :=
  create_unsupported_class exportAll initialState
    (CType.typedefType "rs_uchar" (CType.record "foo")) eiUchar
    (by decide) (by decide) (by decide) (by decide)

/-- C4: for every call to `Create` whose normalized node's structural class
is builtin or pointer but whose descriptor has `vsize > 1`, the call
signals the catalogue-inconsistency contract violation (a signal distinct
from the NULL `notExportable` result) and never builds a primitive export
type. -/
theorem create_scalar_width_mismatch (ex : CType → Bool) (s : CatalogueState)
    (T : CType) (EI : ElementInfo)
    (hex : ex (GET_CANONICAL_TYPE T) = true)
    (hclass : getTypeClass (GET_CANONICAL_TYPE T) = TypeClass.Builtin ∨
              getTypeClass (GET_CANONICAL_TYPE T) = TypeClass.Pointer)
    (hv : EI.vsize > 1) :
    (Create ex s T EI).2.1 =
      CreateResult.catalogueInconsistency
        "Element not a primitive class (please check your macro)" ∧
    ∀ et, (Create ex s T EI).2.1 ≠ CreateResult.ok et := by
  have hv1 : EI.vsize ≠ 1 := by omega
  have heq : (Create ex s T EI).2.1 =
      CreateResult.catalogueInconsistency
        "Element not a primitive class (please check your macro)" := by
    cases hC : GET_CANONICAL_TYPE T with
    | builtin dt n =>
      rw [hC] at hex
      simp [Create, CreateAux, NormalizeType, hC, hex, hv1]
    | pointer dt n =>
      rw [hC] at hex
      simp [Create, CreateAux, NormalizeType, hC, hex, hv1]
    | extVector dt w n => rw [hC] at hclass; simp [getTypeClass] at hclass
    | typedefType n u => exact absurd hC (canonical_ne_typedefType T n u)
    | record n => rw [hC] at hclass; simp [getTypeClass] at hclass
  refine ⟨heq, fun et h => ?_⟩
  rw [heq] at h
  exact CreateResult.noConfusion h

/-- Witness for C4 at a concrete input: the scalar `unsigned char` node
with the width-4 descriptor of `rs_uchar4` is a contract violation. -/
theorem create_scalar_width_mismatch_witness :
    (Create exportAll initialState ucharBuiltin eiUchar4).2.1 =
      CreateResult.catalogueInconsistency
        "Element not a primitive class (please check your macro)" ∧
    ∀ et, (Create exportAll initialState ucharBuiltin eiUchar4).2.1 ≠
      CreateResult.ok et :=
  create_scalar_width_mismatch exportAll initialState ucharBuiltin eiUchar4
    (by decide) (Or.inl (by decide)) (by decide)

/-- C5: for every call to `Create` whose normalized node is an ext-vector
and whose descriptor has `vsize > 1`, either the built vector export type
is returned and it agrees with the descriptor (its scalar kind is
`EI.type` and its element count is `EI.vsize`), or the disagreement is
signalled as a catalogue inconsistency — a mismatching vector is never
returned as a result. -/
theorem create_vector_verified (ex : CType → Bool) (s : CatalogueState)
    (T : CType) (EI : ElementInfo) (dt : DataType) (w : Nat) (nm : String)
    (hC : GET_CANONICAL_TYPE T = CType.extVector dt w nm)
    (hex : ex (CType.extVector dt w nm) = true)
    (hv : EI.vsize > 1) :
    (EI.type = dt ∧ EI.vsize = w ∧
      (Create ex s T EI).2.1 =
        CreateResult.ok (RSExportType.vector dt w EI.normalized nm)) ∨
    ((EI.type ≠ dt ∨ EI.vsize ≠ w) ∧
      ∃ msg, (Create ex s T EI).2.1 =
        CreateResult.catalogueInconsistency msg) := by
  by_cases h1 : EI.type = dt
  · by_cases h2 : EI.vsize = w
    · refine Or.inl ⟨h1, h2, ?_⟩
      have hw : ¬ w ≤ 1 := by omega
      simp [Create, CreateAux, NormalizeType, hC, hex, hv, h1, h2, hw,
        GetTypeName]
    · refine Or.inr ⟨Or.inr h2, "Element has unexpected size of vector", ?_⟩
      simp [Create, CreateAux, NormalizeType, hC, hex, hv, h1, h2]
  · refine Or.inr ⟨Or.inl h1, "Element has unexpected type", ?_⟩
    simp [Create, CreateAux, NormalizeType, hC, hex, hv, h1]

/-- Witness for C5 at a concrete input: the `uchar4` vector node with the
matching `rs_uchar4` descriptor builds the verified vector export type. -/
theorem create_vector_verified_witness :
    (eiUchar4.type = DataType.Unsigned8 ∧ eiUchar4.vsize = 4 ∧
      (Create exportAll initialState uchar4Vector eiUchar4).2.1 =
        CreateResult.ok
          (RSExportType.vector DataType.Unsigned8 4 eiUchar4.normalized
            "uchar4")) ∨
    ((eiUchar4.type ≠ DataType.Unsigned8 ∨ eiUchar4.vsize ≠ 4) ∧
      ∃ msg, (Create exportAll initialState uchar4Vector eiUchar4).2.1 =
        CreateResult.catalogueInconsistency msg) :=
  create_vector_verified exportAll initialState uchar4Vector eiUchar4
    DataType.Unsigned8 4 "uchar4" (by decide) (by decide) (by decide)

/-! ### Claims about Operation B (`CreateFromDecl`) -/

/-- The lookup result returned by `GetElementInfo` is the lookup in the
state it returns. -/
theorem GetElementInfo_spec (s : CatalogueState) (n : String) :
    (GetElementInfo s n).2 = (GetElementInfo s n).1.elementInfoMap.lookup n := by
  simp [GetElementInfo]

/-- A walk that returns a descriptor stopped at a typedef layer whose alias
name maps, in the returned state, to that descriptor. -/
theorem walkAliasChain_matched (CT : CType) (T : CType) :
    ∀ (s s' : CatalogueState) (T' : CType) (e : ElementInfo),
      walkAliasChain CT s T = (s', T', some e) →
      ∃ n u, T' = CType.typedefType n u ∧
        s'.elementInfoMap.lookup n = some e := by
  induction T with
  | builtin dt n => intro s s' T' e h; simp [walkAliasChain] at h
  | pointer dt n => intro s s' T' e h; simp [walkAliasChain] at h
  | extVector dt w n => intro s s' T' e h; simp [walkAliasChain] at h
  | record n => intro s s' T' e h; simp [walkAliasChain] at h
  | typedefType n u ih =>
    intro s s' T' e h
    simp only [walkAliasChain] at h
    by_cases hT : CType.typedefType n u = CT
    · rw [if_pos hT] at h
      simp at h
    · rw [if_neg hT] at h
      have hsp := GetElementInfo_spec s n
      cases hge : GetElementInfo s n with
      | mk s1 oe =>
        rw [hge] at h hsp
        cases oe with
        | some e1 =>
          simp only [Prod.mk.injEq, Option.some.injEq] at h hsp
          obtain ⟨hs1, hT', he⟩ := h
          refine ⟨n, u, hT'.symm, ?_⟩
          rw [← hs1, ← hsp, he]
        | none => exact ih s1 s' T' e h

/-- C1 counterexample: on the concrete chain
`my_alias -> rs_uchar -> unsigned char`, where only the inner alias name
`rs_uchar` is registered, the typedef-chain walk of `CreateFromDecl` stops
— and hands `Create` — the partially alias-stripped `rs_uchar` node, not
the original declared node. -/
theorem resolve_original_node_counterexample :
    walkAliasChain
        (GET_CANONICAL_TYPE
          (CType.typedefType "my_alias"
            (CType.typedefType "rs_uchar" ucharBuiltin)))
        (Init initialState)
        (CType.typedefType "my_alias"
          (CType.typedefType "rs_uchar" ucharBuiltin)) =
      (Init initialState, CType.typedefType "rs_uchar" ucharBuiltin,
        some eiUchar) ∧
    CType.typedefType "rs_uchar" ucharBuiltin ≠
      CType.typedefType "my_alias"
        (CType.typedefType "rs_uchar" ucharBuiltin) := by
  exact ⟨by decide, by decide⟩

/-- C1 (amended): when the canonical class is builtin or ext-vector and the
typedef-chain walk finds a registered alias name, `CreateFromDecl` invokes
`Create` with the node of the matched alias layer — the original declared
node exactly when the outermost layer matched — together with the matched
descriptor, and returns `Create`'s result. -/
theorem resolve_matched_alias (ex : CType → Bool)
    (gen : CType → Option RSExportType) (s : CatalogueState)
    (DD : DeclaratorDecl) (s' : CatalogueState) (T' : CType)
    (e : ElementInfo)
    (hclass : getTypeClass (GET_CANONICAL_TYPE (GetTypeOfDecl DD)) =
        TypeClass.Builtin ∨
      getTypeClass (GET_CANONICAL_TYPE (GetTypeOfDecl DD)) =
        TypeClass.ExtVector)
    (hwalk : walkAliasChain (GET_CANONICAL_TYPE (GetTypeOfDecl DD)) s
        (GetTypeOfDecl DD) = (s', T', some e)) :
    CreateFromDecl ex gen s DD = Create ex s' T' e ∧
    ∃ n u, T' = CType.typedefType n u ∧
      s'.elementInfoMap.lookup n = some e := by
  constructor
  · rcases hclass with h | h <;> simp [CreateFromDecl, h, hwalk]
  · exact walkAliasChain_matched _ _ _ _ _ _ hwalk

/-- Witness for C1 (amended) at a concrete input: a declaration typedef'd
directly as `rs_uchar` resolves through `Create` with the `rs_uchar` node
and its catalogue descriptor. -/
theorem resolve_matched_alias_witness :
    CreateFromDecl exportAll genBuilder (Init initialState)
        ⟨CType.typedefType "rs_uchar" ucharBuiltin⟩ =
      Create exportAll (Init initialState)
        (CType.typedefType "rs_uchar" ucharBuiltin) eiUchar ∧
    ∃ n u, CType.typedefType "rs_uchar" ucharBuiltin =
        CType.typedefType n u ∧
      (Init initialState).elementInfoMap.lookup n = some eiUchar :=
  resolve_matched_alias exportAll genBuilder (Init initialState)
    ⟨CType.typedefType "rs_uchar" ucharBuiltin⟩ (Init initialState)
    (CType.typedefType "rs_uchar" ucharBuiltin) eiUchar
    (Or.inl (by decide)) (by decide)

/-- C2 counterexample: for the concrete declaration typedef'd as the
unregistered alias `my_float` of builtin `float` (canonical class builtin,
no alias layer registered), `CreateFromDecl` does not return the generic
builder's result on the original declared node: the builder receives the
alias-stripped node instead. -/
theorem resolve_generic_original_counterexample :
    getTypeClass
        (GET_CANONICAL_TYPE
          (CType.typedefType "my_float"
            (CType.builtin DataType.Float32 "float"))) =
      TypeClass.Builtin ∧
    (walkAliasChain
        (GET_CANONICAL_TYPE
          (CType.typedefType "my_float"
            (CType.builtin DataType.Float32 "float")))
        (Init initialState)
        (CType.typedefType "my_float"
          (CType.builtin DataType.Float32 "float"))).2.2 = none ∧
    (CreateFromDecl exportAll genBuilder (Init initialState)
        ⟨CType.typedefType "my_float"
          (CType.builtin DataType.Float32 "float")⟩).2.1 ≠
      fromGen (genBuilder
        (GetTypeOfDecl
          ⟨CType.typedefType "my_float"
            (CType.builtin DataType.Float32 "float")⟩)) := by
  exact ⟨by decide, by decide, by decide⟩

/-- C2 (amended): when the canonical class is builtin or ext-vector and no
alias layer's name is registered, `CreateFromDecl` delegates to the
external generic builder applied to the node at which the typedef-chain
walk stopped (the canonical form or the first non-alias layer; the
original node only when no alias layer was traversed) and returns that
builder's result. -/
theorem resolve_generic_on_walked_node (ex : CType → Bool)
    (gen : CType → Option RSExportType) (s : CatalogueState)
    (DD : DeclaratorDecl) (s' : CatalogueState) (T' : CType)
    (hclass : getTypeClass (GET_CANONICAL_TYPE (GetTypeOfDecl DD)) =
        TypeClass.Builtin ∨
      getTypeClass (GET_CANONICAL_TYPE (GetTypeOfDecl DD)) =
        TypeClass.ExtVector)
    (hwalk : walkAliasChain (GET_CANONICAL_TYPE (GetTypeOfDecl DD)) s
        (GetTypeOfDecl DD) = (s', T', none)) :
    CreateFromDecl ex gen s DD = (s', fromGen (gen T'), []) := by
  rcases hclass with h | h <;> simp [CreateFromDecl, h, hwalk]

/-- Witness for C2 (amended) at a concrete input: the unregistered alias
`my_float` of `float` resolves to the generic builder's result on the
stripped builtin node. -/
theorem resolve_generic_on_walked_node_witness :
    CreateFromDecl exportAll genBuilder (Init initialState)
        ⟨CType.typedefType "my_float"
          (CType.builtin DataType.Float32 "float")⟩ =
      (Init initialState,
        fromGen (genBuilder (CType.builtin DataType.Float32 "float")), []) :=
  resolve_generic_on_walked_node exportAll genBuilder (Init initialState)
    ⟨CType.typedefType "my_float" (CType.builtin DataType.Float32 "float")⟩
    (Init initialState) (CType.builtin DataType.Float32 "float")
    (Or.inl (by decide)) (by decide)

/-- C3: for an alias chain `A -> B -> u` whose outer name `A` and inner
name `B` are both registered (with different descriptors), and whose
canonical class is builtin or ext-vector, resolution walks outer-to-inner
and stops at the first registered name, so `Create` is invoked with `A`'s
descriptor: the outermost matching name wins. -/
theorem resolve_outer_alias_wins (ex : CType → Bool)
    (gen : CType → Option RSExportType) (s : CatalogueState)
    (a b : String) (u : CType) (eiA eiB : ElementInfo)
    (hs : s.inited = true)
    (ha : s.elementInfoMap.lookup a = some eiA)
    (hb : s.elementInfoMap.lookup b = some eiB)
    (hne : eiA ≠ eiB)
    (hclass : getTypeClass (GET_CANONICAL_TYPE u) = TypeClass.Builtin ∨
      getTypeClass (GET_CANONICAL_TYPE u) = TypeClass.ExtVector) :
    CreateFromDecl ex gen s
        ⟨CType.typedefType a (CType.typedefType b u)⟩ =
      Create ex s (CType.typedefType a (CType.typedefType b u)) eiA := by
  have hneT : CType.typedefType a (CType.typedefType b u) ≠
      GET_CANONICAL_TYPE u :=
    fun h => canonical_ne_typedefType u a (CType.typedefType b u) h.symm
  have hwalk : walkAliasChain (GET_CANONICAL_TYPE u) s
      (CType.typedefType a (CType.typedefType b u)) =
      (s, CType.typedefType a (CType.typedefType b u), some eiA) := by
    simp only [walkAliasChain]
    rw [if_neg hneT]
    simp [GetElementInfo, hs, ha]
  rcases hclass with h | h <;>
    simp [CreateFromDecl, GetTypeOfDecl, GET_CANONICAL_TYPE, h, hwalk]

/-- Witness for C3 at a concrete input: the chain
`rs_uchar4 -> rs_pixel_rgb -> uchar4` (both names registered, descriptors
of widths 4 and 3) resolves with `rs_uchar4`'s descriptor. -/
theorem resolve_outer_alias_wins_witness :
    CreateFromDecl exportAll genBuilder (Init initialState)
        ⟨CType.typedefType "rs_uchar4"
          (CType.typedefType "rs_pixel_rgb" uchar4Vector)⟩ =
      Create exportAll (Init initialState)
        (CType.typedefType "rs_uchar4"
          (CType.typedefType "rs_pixel_rgb" uchar4Vector)) eiUchar4 :=
  resolve_outer_alias_wins exportAll genBuilder (Init initialState)
    "rs_uchar4" "rs_pixel_rgb" uchar4Vector eiUchar4
    { type := DataType.Unsigned8, normalized := true, vsize := 3 }
    (by decide) (by decide) (by decide) (by decide) (Or.inr (by decide))

/-- C6: for every declaration whose canonical form's class is neither
builtin, nor pointer, nor ext-vector, `CreateFromDecl` delegates directly
to the external generic builder on the declared node and returns its
result, leaving the catalogue state untouched — no alias walk, no
catalogue lookup, no invocation of `Create` takes place. -/
theorem resolve_nonelement_class_generic (ex : CType → Bool)
    (gen : CType → Option RSExportType) (s : CatalogueState)
    (DD : DeclaratorDecl)
    (h1 : getTypeClass (GET_CANONICAL_TYPE (GetTypeOfDecl DD)) ≠
      TypeClass.Builtin)
    (h2 : getTypeClass (GET_CANONICAL_TYPE (GetTypeOfDecl DD)) ≠
      TypeClass.Pointer)
    (h3 : getTypeClass (GET_CANONICAL_TYPE (GetTypeOfDecl DD)) ≠
      TypeClass.ExtVector) :
    CreateFromDecl ex gen s DD = (s, fromGen (gen (GetTypeOfDecl DD)), []) := by
  simp [CreateFromDecl, h1, h3]

/-- Witness for C6 at a concrete input: a declaration whose canonical form
is a struct goes straight to the generic builder, on the never-initialized
initial state, which is returned unchanged. -/
theorem resolve_nonelement_class_generic_witness :
    CreateFromDecl exportAll genBuilder initialState
        ⟨CType.typedefType "rs_uchar" (CType.record "foo")⟩ =
      (initialState,
        fromGen (genBuilder
          (GetTypeOfDecl ⟨CType.typedefType "rs_uchar" (CType.record "foo")⟩)),
        []) :=
  resolve_nonelement_class_generic exportAll genBuilder initialState
    ⟨CType.typedefType "rs_uchar" (CType.record "foo")⟩
    (by decide) (by decide) (by decide)

/-! ### Claims about the catalogue -/

/-- The number of `Init` calls performed so far, starting from the static
initial state of the two globals. -/
def initCalls : Nat → CatalogueState
  | 0 => initialState
  | n + 1 => Init (initCalls n)

/-- C9: initialization is idempotent — after any positive number of `Init`
calls the state is the one the first call built, whose map holds exactly
one entry per static-table name (in table order, with the table's
descriptor, and no duplicate names). -/
theorem init_idempotent_populates (n : Nat) (h : 0 < n) :
    initCalls n = Init initialState ∧
    (Init initialState).elementInfoMap =
      RSDataElementTable.map (fun e =>
        (e.1, { type := e.2.1, normalized := e.2.2.1, vsize := e.2.2.2 })) ∧
    ((Init initialState).elementInfoMap.map Prod.fst).Nodup := by
  refine ⟨?_, by decide, by decide⟩
  obtain ⟨m, rfl⟩ : ∃ m, n = m + 1 := ⟨n - 1, by omega⟩
  clear h
  induction m with
  | zero => rfl
  | succ k ih =>
    calc initCalls (k + 1 + 1) = Init (initCalls (k + 1)) := rfl
    _ = Init (Init initialState) := by rw [ih]
    _ = Init initialState := Init_idem initialState

/-- Witness for C9 at a concrete input: two `Init` calls. -/
theorem init_idempotent_populates_witness :
    initCalls 2 = Init initialState ∧
    (Init initialState).elementInfoMap =
      RSDataElementTable.map (fun e =>
        (e.1, { type := e.2.1, normalized := e.2.2.1, vsize := e.2.2.2 })) ∧
    ((Init initialState).elementInfoMap.map Prod.fst).Nodup :=
  init_idempotent_populates 2 (by decide)

/-- C10: both catalogue-consulting operations self-initialize: whatever the
starting state, `GetElementInfo` and `Create` run on the initialized
state — the state they return is `Init` of the input, its flag is set, and
the lookup `GetElementInfo` answers is the lookup in that initialized
map. -/
theorem catalogue_self_initializing (ex : CType → Bool) (s : CatalogueState)
    (Name : String) (T : CType) (EI : ElementInfo) :
    (GetElementInfo s Name).1 = Init s ∧
    (GetElementInfo s Name).2 = (Init s).elementInfoMap.lookup Name ∧
    (Create ex s T EI).1 = Init s ∧
    (Init s).inited = true := by
  by_cases h : s.inited
  · simp [GetElementInfo, Create, Init_of_inited s h, h]
  · simp [GetElementInfo, Create, Init, h]

end Slang
